import Mathlib

/-!
Verification of the falling-body simulator (`src/app.py`).

The Python floating-point arithmetic is modelled over the real numbers `ℝ`;
NumPy's vectorised evaluation over a grid is modelled by `List.map`.
Python raises `ZeroDivisionError` when dividing by zero; in the embedding
of `simulate` this exceptional control flow is made explicit with `Except`,
at both points where the Python evaluation can raise: the divisor
`rho * Cd * A` of `terminal_velocity_with_air_resistance` (src/app.py
line 22, reached while computing the series), and the playback interval
`1000 / fps` passed to `FuncAnimation` (src/app.py line 99, reached after
the series is computed).

`seconds` and `fps` are taken in `ℕ`: the form bounds `seconds` to the
range 1–60 (`st.number_input("시간 (s)", 1, 60, 10)`, src/app.py line 146)
and draws `fps` from the selectbox `{20, 30, 60}` (line 147), so `simulate`
is never reached with a negative value; `np.linspace`'s `ValueError` on a
negative sample count therefore lies outside the modelled domain.
-/

namespace FallingSimulator

noncomputable section

/-- Gravitational acceleration constant `g = 9.80665` (src/app.py line 6). -/
def g : ℝ := 9.80665

/-- Air density constant `rho = 1.225` (src/app.py line 7). -/
def rho : ℝ := 1.225

/-- Free-fall velocity `g * t` (src/app.py lines 10-12). -/
def velocity (t : ℝ) : ℝ := g * t

/-- Free-fall height `h - 0.5 * velocity(t) * t` (src/app.py lines 15-17). -/
def height (h : ℝ) (t : ℝ) : ℝ := h - 0.5 * velocity t * t

/-- Terminal velocity `(2 * m * g / (rho * Cd * A)) ** 0.5`
(src/app.py lines 20-22); Python `**` with real exponent is `Real.rpow`. -/
def terminal_velocity_with_air_resistance (Cd A m : ℝ) : ℝ :=
  (2 * m * g / (rho * Cd * A)) ^ (0.5 : ℝ)

/-- Velocity with air resistance
`v_t * (np.e ** (2*g*t/v_t) - 1) / (np.e ** (2*g*t/v_t) + 1)`
(src/app.py lines 25-29); `np.e ** u` is `Real.exp 1 ^ u` (rpow). -/
def velocity_with_air_resistance (Cd A m t : ℝ) : ℝ :=
  let v_t := terminal_velocity_with_air_resistance Cd A m
  v_t * (Real.exp 1 ^ (2 * g * t / v_t) - 1) / (Real.exp 1 ^ (2 * g * t / v_t) + 1)

/-- Height with air resistance
`h + (v_t*t - v_t**2/g * np.log(np.e**(2*g*t/v_t) + 1) + v_t**2/g * np.log(2))`
(src/app.py lines 32-40); `np.log` is the natural logarithm. -/
def height_with_air_resistance (Cd A h m t : ℝ) : ℝ :=
  let v_t := terminal_velocity_with_air_resistance Cd A m
  h + (v_t * t - v_t ^ 2 / g * Real.log (Real.exp 1 ^ (2 * g * t / v_t) + 1)
    + v_t ^ 2 / g * Real.log 2)

/-- Reference form from the specification text for the refinement claim:
`vt * tanh(g*t/vt)` with `vt = terminalVelocity(Cd,A,m)`. -/
def velocity_with_air_resistance_spec (Cd A m t : ℝ) : ℝ :=
  let v_t := terminal_velocity_with_air_resistance Cd A m
  v_t * Real.tanh (g * t / v_t)

/-- `np.linspace(start, stop, num)`: `num` evenly spaced samples over
`[start, stop]`, sample `i` being `start + (stop - start) * i / (num - 1)`
(src/app.py line 53 uses it to build the time grid). -/
def linspace (start stop : ℝ) (num : ℕ) : List ℝ :=
  (List.range num).map fun (i : ℕ) => start + (stop - start) * i / ((num - 1 : ℕ) : ℝ)

/-- Error outcomes of a `simulate` run.  The specification's taxonomy names
`domainError` and `invalidConfigError`; the Python runtime itself raises
`ZeroDivisionError` on float division by zero, modelled by
`zeroDivisionError`. -/
inductive SimError where
  | domainError
  | invalidConfigError
  | zeroDivisionError
deriving DecidableEq

/-- Everything `simulate` computes and hands to matplotlib / FuncAnimation
(src/app.py lines 53-103): the grid `x`, the series `y`, axis
configuration, the title, and the `FuncAnimation` / `save` arguments. -/
structure SimResult where
  x : List ℝ
  y : List ℝ
  xlim : ℝ × ℝ
  xlabel : String
  ylim : ℝ × ℝ
  ylabel : String
  title : String
  frames : ℕ
  interval : ℝ
  savePath : String
  saveFps : ℕ

/-- The per-frame update closure (src/app.py lines 84-87):
`line.set_data(x[:frame], y[:frame])`.  Python's slice `l[:k]` is
`List.take k`. -/
def update (x y : List ℝ) (frame : ℕ) : List ℝ × List ℝ :=
  (x.take frame, y.take frame)

/-- `simulate` (src/app.py lines 43-103).  Builds the time grid, dispatches
on `(air_resistance, mode)`, configures the axes and the animation.  The
exceptional paths of the Python code on these inputs are the two divisions
by zero: inside `terminal_velocity_with_air_resistance` when
`rho * Cd * A == 0` (reached exactly when `air_resistance` is set, while
computing the series), and at `interval=1000 / fps` in the `FuncAnimation`
call when `fps == 0` (reached after the series is computed, before the
video is saved).  `finish` models everything from the figure setup through
the `FuncAnimation`/`save` calls, so its `fps` test sits after the series
computation, in source order. -/
def simulate (Cd A h m : ℝ) (air_resistance : Bool) (mode : String)
    (seconds fps : ℕ) : Except SimError SimResult :=
  let x : List ℝ := linspace 0 (seconds : ℝ) (fps * seconds + 1)
  let finish : List ℝ → Except SimError SimResult := fun y =>
    if fps = 0 then Except.error SimError.zeroDivisionError
    else
      Except.ok
        { x := x
          y := y
          xlim := (x.headD 0, x.getLastD 0 * 1.1)
          xlabel := "Time (s)"
          ylim :=
            if mode = "속도" then ((0 : ℝ), y.getLastD 0 * 1.1)
            else (y.getLastD 0 * 1.1, y.headD 0 * 1.1)
          ylabel := if mode = "속도" then "Velocity (m/s)" else "Height (m)"
          title :=
            if air_resistance then "Fall Motion with Air Resistance"
            else "Free Fall Motion"
          frames := x.length
          interval := 1000 / (fps : ℝ)
          savePath := "video.mp4"
          saveFps := fps }
  if air_resistance then
    if rho * Cd * A = 0 then Except.error SimError.zeroDivisionError
    else if mode = "속도" then finish (x.map (velocity_with_air_resistance Cd A m))
    else finish (x.map (height_with_air_resistance Cd A h m))
  else
    if mode = "속도" then finish (x.map velocity)
    else finish (x.map (height h))

/-- `format_quality` (src/app.py lines 106-113). -/
def format_quality (quality : ℤ) : String :=
  if quality = 20 then "낮음"
  else if quality = 30 then "중간"
  else "높음"

end

/-! ## Helper lemmas -/

theorem g_pos : 0 < g := by norm_num [g]

theorem rho_pos : 0 < rho := by norm_num [rho]

theorem terminal_velocity_pos (Cd A m : ℝ) (hCd : 0 < Cd) (hA : 0 < A)
    (hm : 0 < m) : 0 < terminal_velocity_with_air_resistance Cd A m := by
  unfold terminal_velocity_with_air_resistance
  have harg : 0 < 2 * m * g / (rho * Cd * A) := by
    have := g_pos; have := rho_pos; positivity
  exact Real.rpow_pos_of_pos harg _

theorem exp_form_eq_tanh (x : ℝ) :
    (Real.exp (2 * x) - 1) / (Real.exp (2 * x) + 1) = Real.tanh x := by
  have hx2 : Real.exp (2 * x) = Real.exp x * Real.exp x := by
    rw [two_mul, Real.exp_add]
  have hpos : 0 < Real.exp x := Real.exp_pos x
  rw [Real.tanh_eq_sinh_div_cosh, Real.sinh_eq, Real.cosh_eq, Real.exp_neg, hx2]
  have h1 : Real.exp x * Real.exp x + 1 ≠ 0 := by positivity
  have h3 : 0 < Real.exp x + (Real.exp x)⁻¹ := by positivity
  field_simp

theorem exp_ratio_mono {E1 E2 : ℝ} (h1 : 0 < E1) (hE : E1 ≤ E2) :
    (E1 - 1) / (E1 + 1) ≤ (E2 - 1) / (E2 + 1) := by
  have h2 : 0 < E2 := lt_of_lt_of_le h1 hE
  rw [div_le_div_iff (by linarith) (by linarith)]
  nlinarith

theorem linspace_grid_getD (seconds fps : ℕ) (hs : 1 ≤ seconds) (hf : 0 < fps)
    (i : ℕ) (hi : i < fps * seconds + 1) :
    (linspace 0 (seconds : ℝ) (fps * seconds + 1)).getD i 0 = (i : ℝ) / (fps : ℝ) := by
  have hfR : (0 : ℝ) < (fps : ℝ) := by exact_mod_cast hf
  have hsR : (0 : ℝ) < (seconds : ℝ) := by exact_mod_cast hs
  simp only [linspace, List.getD_eq_getElem?_getD, List.getElem?_map,
    List.getElem?_range hi, Option.map_some', Option.getD_some]
  have hden : (fps * seconds + 1 - 1 : ℕ) = fps * seconds := by omega
  rw [hden]
  push_cast
  field_simp
  ring

/-! ## Claims -/

/-- C1: for every `Cd > 0`, `A > 0`, `m > 0`, the function
`velocity_with_air_resistance Cd A m t` is monotonically non-decreasing in
`t` over `t ≥ 0` and is bounded above by
`terminal_velocity_with_air_resistance Cd A m`. -/
theorem C1_monotone_bounded (Cd A m : ℝ) (hCd : 0 < Cd) (hA : 0 < A)
    (hm : 0 < m) :
    (∀ t1 t2, 0 ≤ t1 → t1 ≤ t2 →
        velocity_with_air_resistance Cd A m t1
          ≤ velocity_with_air_resistance Cd A m t2) ∧
      (∀ t, 0 ≤ t →
        velocity_with_air_resistance Cd A m t
          ≤ terminal_velocity_with_air_resistance Cd A m) := by
  have hvt := terminal_velocity_pos Cd A m hCd hA hm
  have hg := g_pos
  constructor
  · intro t1 t2 ht1 h12
    simp only [velocity_with_air_resistance, Real.exp_one_rpow]
    have harg : 2 * g * t1 / terminal_velocity_with_air_resistance Cd A m
        ≤ 2 * g * t2 / terminal_velocity_with_air_resistance Cd A m := by
      rw [div_le_div_iff hvt hvt]
      nlinarith [mul_nonneg (mul_nonneg (by linarith : (0:ℝ) ≤ 2 * g)
        (sub_nonneg.mpr h12)) hvt.le]
    have hE12 := Real.exp_le_exp.mpr harg
    have hE1 : 0 < Real.exp (2 * g * t1 / terminal_velocity_with_air_resistance Cd A m) :=
      Real.exp_pos _
    have hE2 : 0 < Real.exp (2 * g * t2 / terminal_velocity_with_air_resistance Cd A m) :=
      Real.exp_pos _
    rw [div_le_div_iff (by linarith) (by linarith)]
    nlinarith [mul_nonneg hvt.le (sub_nonneg.mpr hE12)]
  · intro t ht
    simp only [velocity_with_air_resistance]
    rw [Real.exp_one_rpow]
    have hE : 0 < Real.exp (2 * g * t / terminal_velocity_with_air_resistance Cd A m) :=
      Real.exp_pos _
    rw [div_le_iff (by linarith)]
    nlinarith

theorem C1_witness :
    velocity_with_air_resistance 1 1 1 1 ≤ velocity_with_air_resistance 1 1 1 2 ∧
      velocity_with_air_resistance 1 1 1 1 ≤ terminal_velocity_with_air_resistance 1 1 1 :=
  ⟨(C1_monotone_bounded 1 1 1 (by norm_num) (by norm_num) (by norm_num)).1 1 2
      (by norm_num) (by norm_num),
    (C1_monotone_bounded 1 1 1 (by norm_num) (by norm_num) (by norm_num)).2 1
      (by norm_num)⟩

/-- C2: for every `Cd > 0`, `A > 0`, `m > 0` and `t ≥ 0`, the exponential
form computed by `velocity_with_air_resistance` equals the
hyperbolic-tangent reference form `vt * tanh (g*t/vt)` with
`vt = terminal_velocity_with_air_resistance Cd A m`. -/
theorem C2_exp_form_eq_tanh_form (Cd A m t : ℝ) (hCd : 0 < Cd) (hA : 0 < A)
    (hm : 0 < m) (ht : 0 ≤ t) :
    velocity_with_air_resistance Cd A m t
      = velocity_with_air_resistance_spec Cd A m t := by
  simp only [velocity_with_air_resistance, velocity_with_air_resistance_spec,
    Real.exp_one_rpow]
  rw [mul_div_assoc]
  rw [show 2 * g * t / terminal_velocity_with_air_resistance Cd A m
      = 2 * (g * t / terminal_velocity_with_air_resistance Cd A m) by ring]
  rw [exp_form_eq_tanh]

theorem C2_witness :
    velocity_with_air_resistance 1 1 1 1 = velocity_with_air_resistance_spec 1 1 1 1 :=
  C2_exp_form_eq_tanh_form 1 1 1 1 (by norm_num) (by norm_num) (by norm_num)
    (by norm_num)

/-- C5: for `seconds ≥ 1` and `fps` in the supported set `{20, 30, 60}`,
the time grid built by `simulate` (`linspace 0 seconds (fps*seconds+1)`,
src/app.py line 53) consists of exactly `fps*seconds + 1` uniformly spaced
(spacing `1/fps`, each sample `i` being `i/fps`), strictly increasing
samples with first element `0` and last element `seconds`. -/
theorem C5_time_grid (seconds fps : ℕ) (hs : 1 ≤ seconds)
    (hfps : fps = 20 ∨ fps = 30 ∨ fps = 60) :
    (linspace 0 (seconds : ℝ) (fps * seconds + 1)).length = fps * seconds + 1 ∧
      (∀ i, i < fps * seconds + 1 →
        (linspace 0 (seconds : ℝ) (fps * seconds + 1)).getD i 0 = (i : ℝ) / (fps : ℝ)) ∧
      (linspace 0 (seconds : ℝ) (fps * seconds + 1)).headD 0 = 0 ∧
      (linspace 0 (seconds : ℝ) (fps * seconds + 1)).getLastD 0 = (seconds : ℝ) ∧
      List.Pairwise (· < ·) (linspace 0 (seconds : ℝ) (fps * seconds + 1)) ∧
      (∀ i, i + 1 < fps * seconds + 1 →
        (linspace 0 (seconds : ℝ) (fps * seconds + 1)).getD (i + 1) 0
          - (linspace 0 (seconds : ℝ) (fps * seconds + 1)).getD i 0 = 1 / (fps : ℝ)) := by
  have hf : 0 < fps := by rcases hfps with h | h | h <;> omega
  have hfR : (0 : ℝ) < (fps : ℝ) := by exact_mod_cast hf
  have hsR : (0 : ℝ) < (seconds : ℝ) := by exact_mod_cast hs
  have hlen : (linspace 0 (seconds : ℝ) (fps * seconds + 1)).length = fps * seconds + 1 := by
    simp [linspace]
  refine ⟨hlen, fun i hi => linspace_grid_getD seconds fps hs hf i hi, ?_, ?_, ?_, ?_⟩
  · have h0 := linspace_grid_getD seconds fps hs hf 0 (by omega)
    have hne : linspace 0 (seconds : ℝ) (fps * seconds + 1) ≠ [] := by
      intro hnil
      rw [hnil] at hlen
      simp at hlen
    rw [List.headD_eq_head?_getD, List.head?_eq_getElem?]
    rw [List.getD_eq_getElem?_getD] at h0
    simpa using h0
  · have hl := linspace_grid_getD seconds fps hs hf (fps * seconds) (by omega)
    rw [List.getLastD_eq_getLast?, List.getLast?_eq_getElem?, hlen]
    rw [List.getD_eq_getElem?_getD] at hl
    have hidx : fps * seconds + 1 - 1 = fps * seconds := by omega
    rw [hidx, hl]
    have hcast : ((fps * seconds : ℕ) : ℝ) = (fps : ℝ) * (seconds : ℝ) := by push_cast; ring
    rw [hcast]
    field_simp
  · simp only [linspace, List.pairwise_map]
    refine (List.pairwise_lt_range _).imp ?_
    intro a b hab
    have habR : (a : ℝ) < (b : ℝ) := by exact_mod_cast hab
    have hden : (fps * seconds + 1 - 1 : ℕ) = fps * seconds := by omega
    rw [hden]
    have hcast : ((fps * seconds : ℕ) : ℝ) = (fps : ℝ) * (seconds : ℝ) := by push_cast; ring
    rw [hcast]
    have hfs : (0 : ℝ) < (fps : ℝ) * (seconds : ℝ) := by positivity
    have hlt : ((seconds : ℝ) - 0) * a / ((fps : ℝ) * seconds)
        < ((seconds : ℝ) - 0) * b / ((fps : ℝ) * seconds) := by
      rw [div_lt_div_iff hfs hfs]
      nlinarith [mul_lt_mul_of_pos_right (mul_lt_mul_of_pos_left habR hsR) hfs]
    linarith
  · intro i hi
    rw [linspace_grid_getD seconds fps hs hf (i + 1) hi,
      linspace_grid_getD seconds fps hs hf i (by omega)]
    push_cast
    field_simp

theorem C5_witness :
    (linspace 0 ((10 : ℕ) : ℝ) (20 * 10 + 1)).length = 201 ∧
      (linspace 0 ((10 : ℕ) : ℝ) (20 * 10 + 1)).headD 0 = 0 ∧
      (linspace 0 ((10 : ℕ) : ℝ) (20 * 10 + 1)).getLastD 0 = 10 ∧
      List.Pairwise (· < ·) (linspace 0 ((10 : ℕ) : ℝ) (20 * 10 + 1)) ∧
      (∀ i, i + 1 < 20 * 10 + 1 →
        (linspace 0 ((10 : ℕ) : ℝ) (20 * 10 + 1)).getD (i + 1) 0
          - (linspace 0 ((10 : ℕ) : ℝ) (20 * 10 + 1)).getD i 0 = 0.05) := by
  obtain ⟨h1, h2, h3, h4, h5, h6⟩ := C5_time_grid 10 20 (by norm_num) (Or.inl rfl)
  refine ⟨by rw [h1], h3, by rw [h4]; norm_num, h5, fun i hi => ?_⟩
  rw [h6 i hi]
  norm_num

/-- C6: for every `Cd > 0`, `A > 0`, `m > 0` and initial height `h0`,
`height_with_air_resistance Cd A h0 m 0 = h0` exactly: the drag correction
terms cancel at `t = 0`. -/
theorem C6_height_at_zero (Cd A h0 m : ℝ) (hCd : 0 < Cd) (hA : 0 < A)
    (hm : 0 < m) : height_with_air_resistance Cd A h0 m 0 = h0 := by
  simp only [height_with_air_resistance, mul_zero, zero_div, Real.rpow_zero]
  norm_num

theorem C6_witness : height_with_air_resistance 0.42 19.25 70 1000 0 = 70 :=
  C6_height_at_zero 0.42 19.25 70 1000 (by norm_num) (by norm_num) (by norm_num)

/-- C7: for `Cd * A > 0` and `m > 0`,
`terminal_velocity_with_air_resistance Cd A m = sqrt (2*m*g / (rho*Cd*A))`
with `g = 9.80665` and `rho = 1.225`. -/
theorem C7_terminal_velocity (Cd A m : ℝ) (hCdA : 0 < Cd * A) (hm : 0 < m) :
    terminal_velocity_with_air_resistance Cd A m
      = Real.sqrt (2 * m * 9.80665 / (1.225 * Cd * A)) := by
  unfold terminal_velocity_with_air_resistance
  rw [show (0.5 : ℝ) = 1 / 2 by norm_num, ← Real.sqrt_eq_rpow]
  norm_num [g, rho]

theorem C7_witness :
    terminal_velocity_with_air_resistance 1 1 1
      = Real.sqrt (2 * 1 * 9.80665 / (1.225 * 1 * 1)) :=
  C7_terminal_velocity 1 1 1 (by norm_num) (by norm_num)

/-- C9: the quality-label function maps `20` to the "low" label `낮음`,
`30` to the "medium" label `중간`, and every other value (including `60`)
to the "high" label `높음`. -/
theorem C9_format_quality :
    format_quality 20 = "낮음" ∧ format_quality 30 = "중간" ∧
      ∀ q : ℤ, q ≠ 20 → q ≠ 30 → format_quality q = "높음" := by
  refine ⟨rfl, rfl, fun q h20 h30 => ?_⟩
  simp [format_quality, h20, h30]

theorem C9_witness : format_quality 60 = "높음" :=
  C9_format_quality.2.2 60 (by decide) (by decide)

theorem update_spec (x y : List ℝ) (k i : ℕ) :
    (update x y k).1.length = min k x.length ∧
      (update x y k).2.length = min k y.length ∧
      (update x y k).1[i]? = (if i < k then x[i]? else none) ∧
      (update x y k).2[i]? = (if i < k then y[i]? else none) :=
  ⟨by simp [update], by simp [update],
    by simp [update, List.getElem?_take],
    by simp [update, List.getElem?_take]⟩

/-- C3 as stated is false: with the air-resistance toggle off, `Cd` and `A`
are never read, so `Cd = 0` runs to completion with no error at all; and
on the air-resistance path the failure is the Python `ZeroDivisionError`,
not a `DomainError`. -/
theorem C3_counterexample :
    (simulate 0 19.25 70 1000 false "속도" 10 20).isOk = true ∧
      simulate 0 19.25 70 1000 true "속도" 10 20
          = Except.error SimError.zeroDivisionError ∧
      simulate 0 19.25 70 1000 true "속도" 10 20
          ≠ Except.error SimError.domainError := by
  have herr : simulate 0 19.25 70 1000 true "속도" 10 20
      = Except.error SimError.zeroDivisionError := by
    simp [simulate]
  refine ⟨rfl, herr, ?_⟩
  rw [herr]
  simp

/-- C3 amended: for every input with `Cd * A = 0`, when the air-resistance
model is selected `simulate` fails with a `ZeroDivisionError` raised while
computing the terminal velocity — before any rendering, and before the
playback-interval division; with air resistance off, `Cd` and `A` are
unused and, for nonzero `fps`, `simulate` completes without error. -/
theorem C3_amended (Cd A h m : ℝ) (mode : String) (seconds fps : ℕ)
    (hCdA : Cd * A = 0) :
    simulate Cd A h m true mode seconds fps
        = Except.error SimError.zeroDivisionError ∧
      (fps ≠ 0 → (simulate Cd A h m false mode seconds fps).isOk = true) := by
  have hc : rho * Cd * A = 0 := by rw [mul_assoc, hCdA, mul_zero]
  constructor
  · simp [simulate, hc]
  · intro hfps
    simp only [simulate, Bool.false_eq_true, if_false]
    split <;> rfl

theorem C3_witness :
    simulate 0 19.25 70 1000 true "높이" 10 20
        = Except.error SimError.zeroDivisionError ∧
      (simulate 0 19.25 70 1000 false "높이" 10 20).isOk = true :=
  ⟨(C3_amended 0 19.25 70 1000 "높이" 10 20 (by norm_num)).1,
    (C3_amended 0 19.25 70 1000 "높이" 10 20 (by norm_num)).2 (by norm_num)⟩

/-- C4 as stated is false: `simulate` performs no validation at all; with
`seconds = 0 < 1` it builds the single-sample grid and completes without
any error (never an `InvalidConfigError`). -/
theorem C4_counterexample :
    (simulate 0.42 19.25 70 1000 false "속도" 0 20).isOk = true ∧
      simulate 0.42 19.25 70 1000 false "속도" 0 20
        ≠ Except.error SimError.invalidConfigError := by
  refine ⟨rfl, ?_⟩
  simp [simulate]

/-- C4 amended: `simulate` performs no `seconds`/`fps` validation and never
returns an `InvalidConfigError` for any input.  For `seconds = 0` (the
`seconds < 1` case reachable through the form, whose bounds keep `seconds`
nonnegative) and any nonzero `fps`, the free-fall run completes without
error, building the `fps*seconds + 1` sample grid and computing the series;
the unsupported `fps = 0` does fail, but with a `ZeroDivisionError` at the
playback-interval division `1000/fps` — after the grid and series are
computed, not before computation, and not with an `InvalidConfigError`. -/
theorem C4_amended (Cd A h m : ℝ) (air : Bool) (mode : String)
    (seconds fps : ℕ) :
    simulate Cd A h m air mode seconds fps
        ≠ Except.error SimError.invalidConfigError ∧
      (fps ≠ 0 → (simulate Cd A h m false mode seconds fps).isOk = true) ∧
      (fps ≠ 0 → (simulate Cd A h m false mode seconds fps).map (fun r => r.x.length)
        = Except.ok (fps * seconds + 1)) ∧
      (fps = 0 → simulate Cd A h m false mode seconds fps
        = Except.error SimError.zeroDivisionError) := by
  refine ⟨?_, ?_, ?_, ?_⟩
  · intro hcon
    simp only [simulate] at hcon
    split at hcon
    · split at hcon
      · simp at hcon
      · split at hcon <;> split at hcon <;> simp at hcon
    · split at hcon <;> split at hcon <;> simp at hcon
  · intro hfps
    simp only [simulate, Bool.false_eq_true, if_false]
    split <;> rfl
  · intro hfps
    simp only [simulate, Bool.false_eq_true, if_false]
    split <;> simp [Except.map, linspace]
  · intro hfps
    simp only [simulate, Bool.false_eq_true, if_false]
    split <;> rfl

theorem C4_witness :
    (simulate 0.42 19.25 70 1000 false "속도" 0 20).isOk = true ∧
      simulate 0.42 19.25 70 1000 false "속도" 10 0
        = Except.error SimError.zeroDivisionError :=
  ⟨(C4_amended 0.42 19.25 70 1000 false "속도" 0 20).2.1 (by norm_num),
    (C4_amended 0.42 19.25 70 1000 false "속도" 10 0).2.2.2 rfl⟩

/-- C8: for every successful run, the total number of animation frames
equals the length of the grid `x` (namely `fps*seconds + 1`), the playback
interval is `1000/fps` milliseconds, and the frame-update function at
frame `k` draws exactly the first `k` points of `(x, y)` (points
`0..k-1`). -/
theorem C8_animation (Cd A h m : ℝ) (air : Bool) (mode : String)
    (seconds fps : ℕ) (r : SimResult)
    (hr : simulate Cd A h m air mode seconds fps = Except.ok r) :
    r.frames = r.x.length ∧ r.x.length = fps * seconds + 1 ∧
      r.interval = 1000 / (fps : ℝ) ∧
      (∀ k i : ℕ,
        (update r.x r.y k).1.length = min k r.x.length ∧
          (update r.x r.y k).2.length = min k r.y.length ∧
          (update r.x r.y k).1[i]? = (if i < k then r.x[i]? else none) ∧
          (update r.x r.y k).2[i]? = (if i < k then r.y[i]? else none)) := by
  simp only [simulate] at hr
  split at hr
  · split at hr
    · exact Except.noConfusion hr
    · split at hr <;> split at hr <;>
        first
          | exact Except.noConfusion hr
          | (rw [Except.ok.injEq] at hr
             subst hr
             exact ⟨rfl, by simp [linspace], rfl, fun k i => update_spec _ _ k i⟩)
  · split at hr <;> split at hr <;>
      first
        | exact Except.noConfusion hr
        | (rw [Except.ok.injEq] at hr
           subst hr
           exact ⟨rfl, by simp [linspace], rfl, fun k i => update_spec _ _ k i⟩)

theorem C8_witness :
    (simulate 1 1 70 1000 false "속도" 1 20).map SimResult.frames
        = Except.ok 21 ∧
      (simulate 1 1 70 1000 false "속도" 1 20).map SimResult.interval
        = Except.ok (1000 / ((20 : ℕ) : ℝ)) := by
  obtain ⟨r, hr⟩ : ∃ r, simulate 1 1 70 1000 false "속도" 1 20 = Except.ok r :=
    ⟨_, rfl⟩
  obtain ⟨h1, h2, h3, h4⟩ := C8_animation 1 1 70 1000 false "속도" 1 20 r hr
  rw [hr]
  constructor
  · simp only [Except.map]
    rw [h1, h2]
  · simp only [Except.map]
    rw [h3]

/-- C10 as stated is false in its "with no error raised" part: at `fps = 0`
a run with the unrecognized mode `"xyz"` fails with the mode-independent
`ZeroDivisionError` at the playback-interval division, so an error is
raised (though not a rejection of the mode). -/
theorem C10_counterexample :
    ("xyz" : String) ≠ "속도" ∧
      simulate 0.42 19.25 70 1000 false "xyz" 10 0
        = Except.error SimError.zeroDivisionError ∧
      (simulate 0.42 19.25 70 1000 false "xyz" 10 0).isOk ≠ true := by
  have herr : simulate 0.42 19.25 70 1000 false "xyz" 10 0
      = Except.error SimError.zeroDivisionError := by
    simp [simulate]
  refine ⟨by decide, herr, ?_⟩
  rw [herr]
  simp [Except.isOk, Except.toBool]

/-- C10 amended: `simulate` never rejects an unrecognized `mode` value: for
every mode string other than `"속도"` (Velocity), the run behaves exactly
as in Height mode (`"높이"`) — same model dispatch, same axis
configuration, same outcome — and with the free-fall model and nonzero
`fps` it completes with no error, producing the height series and the
`"Height (m)"` axis label; at `fps = 0` it fails with the mode-independent
interval `ZeroDivisionError`, identically to Height mode. -/
theorem C10_mode_fallback (Cd A h m : ℝ) (air : Bool) (mode : String)
    (seconds fps : ℕ) (hmode : mode ≠ "속도") :
    simulate Cd A h m air mode seconds fps
        = simulate Cd A h m air "높이" seconds fps ∧
      (fps ≠ 0 → (simulate Cd A h m false mode seconds fps).isOk = true) ∧
      (fps ≠ 0 → (simulate Cd A h m false mode seconds fps).map SimResult.y
        = Except.ok ((linspace 0 (seconds : ℝ) (fps * seconds + 1)).map (height h))) ∧
      (fps ≠ 0 → (simulate Cd A h m false mode seconds fps).map SimResult.ylabel
        = Except.ok "Height (m)") ∧
      (fps = 0 → simulate Cd A h m false mode seconds fps
        = Except.error SimError.zeroDivisionError) := by
  have hne : ("높이" : String) ≠ "속도" := by decide
  refine ⟨by simp [simulate, hmode, hne], fun hfps => ?_, fun hfps => ?_,
      fun hfps => ?_, fun hfps => ?_⟩ <;>
    simp [simulate, hmode, hne, hfps, Except.map, Except.isOk, Except.toBool]

theorem C10_witness :
    simulate 0.42 19.25 70 1000 true "xyz" 10 20
        = simulate 0.42 19.25 70 1000 true "높이" 10 20 ∧
      (simulate 0.42 19.25 70 1000 false "xyz" 10 20).isOk = true ∧
      (simulate 0.42 19.25 70 1000 false "xyz" 10 20).map SimResult.y
        = Except.ok ((linspace 0 ((10 : ℕ) : ℝ) (20 * 10 + 1)).map (height 70)) ∧
      (simulate 0.42 19.25 70 1000 false "xyz" 10 20).map SimResult.ylabel
        = Except.ok "Height (m)" ∧
      simulate 0.42 19.25 70 1000 false "xyz" 10 0
        = Except.error SimError.zeroDivisionError :=
  ⟨(C10_mode_fallback 0.42 19.25 70 1000 true "xyz" 10 20 (by decide)).1,
    (C10_mode_fallback 0.42 19.25 70 1000 true "xyz" 10 20 (by decide)).2.1
      (by norm_num),
    (C10_mode_fallback 0.42 19.25 70 1000 true "xyz" 10 20 (by decide)).2.2.1
      (by norm_num),
    (C10_mode_fallback 0.42 19.25 70 1000 true "xyz" 10 20 (by decide)).2.2.2.1
      (by norm_num),
    (C10_mode_fallback 0.42 19.25 70 1000 true "xyz" 10 0 (by decide)).2.2.2.2
      rfl⟩

end FallingSimulator
